import Mathlib

/-!
Shallow embedding of the carbon-footprint calculation engine of
`src/global.py` (Streamlit app "EcoFootprint: Global Carbon Calculator").

The engine consists of:
* two static factor tables, `COUNTRY_GRID_MIX` and `GLOBAL_EMISSION_FACTORS`;
* the pure function `calculate_carbon_footprint(data, region)` returning
  `(total_kg_co2, breakdown)`;
* the caller-side gate `valid_input` (line 213 of the source);
* the recommendation block (lines 264-285 of the source): conditional
  emission of four rules followed by a stable descending sort on savings.

Python dicts are modelled as association lists `List (String × ℚ)` (in
insertion order, as Python preserves it); numbers as `ℚ`; a field that may
be absent from the input dict as an `Option`; a computation that can raise
`KeyError` as an `Option` result (`none` = the call raises).
-/

namespace EcoFootprint

/-- Table lines 47-56 of the source: African grid emission factors,
kg CO2e per kWh, keyed by country label.  The sentinel entry
"Select Country" maps to 0.0 and is an ordinary key of the dict. -/
def COUNTRY_GRID_MIX : List (String × ℚ) :=
  [("Select Country", 0.0),
   ("Nigeria (Gas-dominated)", 0.55),
   ("South Africa (Coal-dominated)", 0.9),
   ("Kenya (Geothermal/Hydro)", 0.3),
   ("Ghana (Hydro/Gas)", 0.45),
   ("Egypt (Gas-dominated)", 0.6),
   ("Ethiopia (Hydro-dominated)", 0.05),
   ("General Sub-Saharan Africa Avg", 0.48)]

/-- Table lines 59-81 of the source: global emission factors per unit. -/
def GLOBAL_EMISSION_FACTORS : List (String × ℚ) :=
  [("electricity", 0.5),
   ("natural_gas", 2.0),
   ("heating_oil", 2.68),
   ("propane", 1.5),
   ("car_gasoline", 0.31),
   ("car_diesel", 0.27),
   ("motorcycle", 0.11),
   ("bus", 0.11),
   ("train", 0.06),
   ("plane_short", 0.24),
   ("diet_meat_heavy", 3.3),
   ("diet_typical", 1.8),
   ("diet_meat_regular", 2.7),
   ("diet_average", 2.5),
   ("diet_vegetarian", 1.5),
   ("diet_vegan", 1.2),
   ("lpg_per_kg", 3.0)]

/-- Dictionary lines 119-126 of the source: diet label to factor key.
The same six-entry map is used for both regions. -/
def diet_map : List (String × String) :=
  [("Typical (Staples + some meat)", "diet_typical"),
   ("Meat regularly", "diet_meat_regular"),
   ("Meat-Heavy", "diet_meat_heavy"),
   ("Average", "diet_average"),
   ("Vegetarian", "diet_vegetarian"),
   ("Vegan", "diet_vegan")]

/-- Total lookup in a rational-valued table.  Every factor key the engine
reads with a literal (`"electricity"`, `"car_gasoline"`, …) is present in
`GLOBAL_EMISSION_FACTORS`, so on the accesses the engine actually makes this agrees
with the raising Python access `dict[key]`; key-absence that CAN occur at runtime
(the country and diet lookups) is modelled with `List.lookup` directly. -/
def lookupD (t : List (String × ℚ)) (k : String) : ℚ :=
  (t.lookup k).getD 0

/-- Input dict `input_data` as assembled by the UI (lines 142-207): every
field the engine may read, `none` when the key is absent from the dict. -/
structure InputRecord where
  country : Option String := none
  electricity_kwh : Option ℚ := none
  natural_gas_therms : Option ℚ := none
  heating_oil_liters : Option ℚ := none
  propane_liters : Option ℚ := none
  lpg_kg_per_month : Option ℚ := none
  car_miles_week : Option ℚ := none
  bus_miles_week : Option ℚ := none
  train_miles_week : Option ℚ := none
  car_km_week : Option ℚ := none
  moto_km_week : Option ℚ := none
  bus_km_week : Option ℚ := none
  flight_hours : Option ℚ := none
  diet : Option String := none

/-- Body of `calculate_carbon_footprint` (lines 86-131) up to the final
summation: the breakdown dict in insertion order, parametrised by the two
factor tables (in the source they are the module-level globals).  `none`
models a `KeyError` escaping the function: a missing required key
(`data["country"]`, `data["electricity_kwh"]`, `data["flight_hours"]`,
`data["diet"]`), an unknown country, or an unknown diet label. -/
def calcBreakdown (grid gef : List (String × ℚ)) (data : InputRecord)
    (region : String) : Option (List (String × ℚ)) :=
  let housing? : Option (List (String × ℚ)) :=
    if region == "africa" then
      match data.country with
      | none => none
      | some c =>
        match grid.lookup c with
        | none => none
        | some grid_factor =>
          match data.electricity_kwh with
          | none => none
          | some e =>
            let base := [("Housing: Electricity", e * grid_factor * 12)]
            match data.lpg_kg_per_month with
            | some lpg =>
                some (base ++
                  [("Housing: Cooking (LPG)", lpg * lookupD gef "lpg_per_kg" * 12)])
            | none => some base
    else
      match data.electricity_kwh with
      | none => none
      | some e =>
        some [("Housing: Electricity", e * lookupD gef "electricity" * 12),
              ("Housing: Natural Gas",
                data.natural_gas_therms.getD 0 * lookupD gef "natural_gas" * 12),
              ("Housing: Heating Oil",
                data.heating_oil_liters.getD 0 * lookupD gef "heating_oil" * 12),
              ("Housing: Propane",
                data.propane_liters.getD 0 * lookupD gef "propane" * 12)]
  match housing? with
  | none => none
  | some housing =>
    let transport : List (String × ℚ) :=
      if region == "africa" then
        [("Transport: Car", data.car_km_week.getD 0 * 52 * lookupD gef "car_gasoline"),
         ("Transport: Motorcycle", data.moto_km_week.getD 0 * 52 * lookupD gef "motorcycle"),
         ("Transport: Bus/Minibus", data.bus_km_week.getD 0 * 52 * lookupD gef "bus")]
      else
        [("Transport: Car", data.car_miles_week.getD 0 * lookupD gef "car_gasoline" * 52),
         ("Transport: Bus", data.bus_miles_week.getD 0 * lookupD gef "bus" * 52),
         ("Transport: Train", data.train_miles_week.getD 0 * lookupD gef "train" * 52)]
    match data.flight_hours with
    | none => none
    | some fh =>
      let flights := [("Transport: Flights", fh * 500 * lookupD gef "plane_short")]
      match data.diet with
      | none => none
      | some d =>
        match diet_map.lookup d with
        | none => none
        | some diet_key =>
          some (housing ++ transport ++ flights ++
                [("Diet", lookupD gef diet_key * 365)])

/-- Sum of the values of a breakdown dict: `sum(breakdown.values())`. -/
def breakdownSum (b : List (String × ℚ)) : ℚ :=
  (b.map Prod.snd).sum

/-- Function `calculate_carbon_footprint` with the factor tables as
explicit parameters: returns `(total_kg_co2, breakdown)` (line 132), the
total being the sum of the breakdown values (line 131). -/
def calculate_cf (grid gef : List (String × ℚ)) (data : InputRecord)
    (region : String) : Option (ℚ × List (String × ℚ)) :=
  (calcBreakdown grid gef data region).map (fun b => (breakdownSum b, b))

/-- Function `calculate_carbon_footprint(data, region)` (lines 86-132),
reading the module-level tables as the source does. -/
def calculate_carbon_footprint (data : InputRecord) (region : String) :
    Option (ℚ × List (String × ℚ)) :=
  calculate_cf COUNTRY_GRID_MIX GLOBAL_EMISSION_FACTORS data region

/-- Caller-side gate, line 213 of the source:
`valid_input = True if region != "Africa" or (region == "Africa" and
input_data.get("country") != "Select Country") else False`.
The calculation (line 216) runs only when this is `true`.  Note the UI
region label is "Africa" (capitalised); `.get("country")` returns `None`
when absent, which compares unequal to the sentinel string. -/
def valid_input (region : String) (data : InputRecord) : Bool :=
  (region != "Africa") || ((region == "Africa") && (data.country != some "Select Country"))

/-- Value lookup in a breakdown dict: `breakdown_dict.get(key, 0)`. -/
def lookupB (b : List (String × ℚ)) (k : String) : ℚ :=
  (b.lookup k).getD 0

/-- Predicate deciding whether a character list starts with `Meat`. -/
def startsWithMeat : List Char → Bool
  | 'M' :: 'e' :: 'a' :: 't' :: _ => true
  | _ => false

/-- Python substring test `"Meat" in s` (line 279), on the character list. -/
def containsMeat : List Char → Bool
  | [] => false
  | c :: rest => startsWithMeat (c :: rest) || containsMeat rest

/-- Stable insertion of a recommendation into a list already sorted by
descending savings: the new element goes before the first element whose
savings do not exceed it. -/
def insertRec (x : String × ℚ) : List (String × ℚ) → List (String × ℚ)
  | [] => [x]
  | y :: ys => if y.2 ≤ x.2 then x :: y :: ys else y :: insertRec x ys

/-- Stable sort by descending savings, the semantics of
`recommendations.sort(key=lambda x: x[1], reverse=True)` (line 283):
the Python sort is stable, and with `reverse=True` elements with equal keys
keep their original order. -/
def sortRecs : List (String × ℚ) → List (String × ℚ)
  | [] => []
  | x :: xs => insertRec x (sortRecs xs)

/-- Rule block lines 264-280 of the source: the recommendation list in
emission order, before sorting.  Rule 4 reads `input_data["diet"]` only
when its first conjunct holds (Python `and` short-circuits); a missing
diet key there is a `KeyError`, modelled as `none`. -/
def recommendations_raw (breakdown : List (String × ℚ)) (data : InputRecord)
    (region : String) : Option (List (String × ℚ)) :=
  let r1 : List (String × ℚ) :=
    if lookupB breakdown "Transport: Car" > 2000 then
      [("**🚗 Reduce car travel by 20%.** Use public transport, bike, or carpool just one day a week.", 400)]
    else []
  let r2 : List (String × ℚ) :=
    if lookupB breakdown "Housing: Electricity" > 1500 then
      [("**💡 Switch to energy-efficient appliances** and LED bulbs. Consider solar if available.", 500)]
    else []
  let r3 : List (String × ℚ) :=
    if region == "africa" ∧ lookupB breakdown "Housing: Cooking (LPG)" > 500 then
      [("**🔥 Improve cooking efficiency.** Use a pressure cooker or hotbox to reduce LPG consumption.", 100)]
    else []
  if lookupB breakdown "Diet" > 2000 then
    match data.diet with
    | none => none
    | some d =>
      if containsMeat d.data then
        some (r1 ++ r2 ++ r3 ++
          [("**🍽️ Reduce meat consumption.** Try having one meat-free day per week.", 200)])
      else some (r1 ++ r2 ++ r3)
  else some (r1 ++ r2 ++ r3)

/-- Recommendation block lines 264-283: emit the rules in order, then sort
by savings descending (stable). -/
def recommendations (breakdown : List (String × ℚ)) (data : InputRecord)
    (region : String) : Option (List (String × ℚ)) :=
  (recommendations_raw breakdown data region).map sortRecs

/-- Enumeration of the numeric input fields of `InputRecord`. -/
inductive NumField
  | electricity_kwh | natural_gas_therms | heating_oil_liters | propane_liters
  | lpg_kg_per_month | car_miles_week | bus_miles_week | train_miles_week
  | car_km_week | moto_km_week | bus_km_week | flight_hours

/-- Write a value into one numeric field of an input record. -/
def setNum : NumField → ℚ → InputRecord → InputRecord
  | .electricity_kwh, v, d => { d with electricity_kwh := some v }
  | .natural_gas_therms, v, d => { d with natural_gas_therms := some v }
  | .heating_oil_liters, v, d => { d with heating_oil_liters := some v }
  | .propane_liters, v, d => { d with propane_liters := some v }
  | .lpg_kg_per_month, v, d => { d with lpg_kg_per_month := some v }
  | .car_miles_week, v, d => { d with car_miles_week := some v }
  | .bus_miles_week, v, d => { d with bus_miles_week := some v }
  | .train_miles_week, v, d => { d with train_miles_week := some v }
  | .car_km_week, v, d => { d with car_km_week := some v }
  | .moto_km_week, v, d => { d with moto_km_week := some v }
  | .bus_km_week, v, d => { d with bus_km_week := some v }
  | .flight_hours, v, d => { d with flight_hours := some v }

/-- Breakdown category fed by each numeric field (per the formulas at
lines 97-116 of the source). -/
def catOf : NumField → String
  | .electricity_kwh => "Housing: Electricity"
  | .natural_gas_therms => "Housing: Natural Gas"
  | .heating_oil_liters => "Housing: Heating Oil"
  | .propane_liters => "Housing: Propane"
  | .lpg_kg_per_month => "Housing: Cooking (LPG)"
  | .car_miles_week => "Transport: Car"
  | .bus_miles_week => "Transport: Bus"
  | .train_miles_week => "Transport: Train"
  | .car_km_week => "Transport: Car"
  | .moto_km_week => "Transport: Motorcycle"
  | .bus_km_week => "Transport: Bus/Minibus"
  | .flight_hours => "Transport: Flights"

/-- Replacement of the value stored at a key of a dict, all other entries
unchanged (Python `d[key] = v` on an existing key keeps the dict order). -/
def updateTable : List (String × ℚ) → String → ℚ → List (String × ℚ)
  | [], _, _ => []
  | (k, x) :: rest, key, v =>
    if k == key then (k, v) :: rest else (k, x) :: updateTable rest key v

end EcoFootprint

namespace EcoFootprint

/-- Every value stored in the grid-intensity table is non-negative. -/
theorem grid_nonneg {c : String} {q : ℚ}
    (h : List.lookup c COUNTRY_GRID_MIX = some q) : 0 ≤ q := by
  simp only [COUNTRY_GRID_MIX, List.lookup] at h
  repeat' split at h
  all_goals simp_all
  all_goals norm_num [← h]

/-- Every factor key produced by the diet map is one of the six diet keys. -/
theorem diet_key_cases {d k : String}
    (h : List.lookup d diet_map = some k) :
    k = "diet_typical" ∨ k = "diet_meat_regular" ∨ k = "diet_meat_heavy" ∨
    k = "diet_average" ∨ k = "diet_vegetarian" ∨ k = "diet_vegan" := by
  simp only [diet_map, List.lookup] at h
  repeat' split at h
  all_goals simp_all

/-- Lookup at a key other than the updated one is unchanged. -/
theorem lookup_updateTable_ne (t : List (String × ℚ)) (key : String) (v : ℚ)
    {k : String} (hk : k ≠ key) :
    List.lookup k (updateTable t key v) = List.lookup k t := by
  induction t with
  | nil => rfl
  | cons p rest ih =>
    obtain ⟨a, b⟩ := p
    by_cases hak : a == key
    · have ha : a = key := by simpa using hak
      have hka : (k == a) = false := by simp [ha, hk]
      simp [updateTable, hak, List.lookup, hka]
    · by_cases hk2 : k == a
      · simp [updateTable, hak, List.lookup, hk2]
      · simp [updateTable, hak, List.lookup, hk2, ih]

/-- Value lookup at a key other than the updated one is unchanged. -/
theorem lookupD_updateTable_ne (t : List (String × ℚ)) (key : String) (v : ℚ)
    {k : String} (hk : k ≠ key) :
    lookupD (updateTable t key v) k = lookupD t k := by
  simp [lookupD, lookup_updateTable_ne t key v hk]

/-- Factor stored under `electricity`. -/
theorem gef_electricity : lookupD GLOBAL_EMISSION_FACTORS "electricity" = 0.5 := by
  simp [lookupD, GLOBAL_EMISSION_FACTORS, List.lookup]

/-- Factor stored under `natural_gas`. -/
theorem gef_natural_gas : lookupD GLOBAL_EMISSION_FACTORS "natural_gas" = 2.0 := by
  simp [lookupD, GLOBAL_EMISSION_FACTORS, List.lookup]

/-- Factor stored under `heating_oil`. -/
theorem gef_heating_oil : lookupD GLOBAL_EMISSION_FACTORS "heating_oil" = 2.68 := by
  simp [lookupD, GLOBAL_EMISSION_FACTORS, List.lookup]

/-- Factor stored under `propane`. -/
theorem gef_propane : lookupD GLOBAL_EMISSION_FACTORS "propane" = 1.5 := by
  simp [lookupD, GLOBAL_EMISSION_FACTORS, List.lookup]

/-- Factor stored under `car_gasoline`. -/
theorem gef_car_gasoline : lookupD GLOBAL_EMISSION_FACTORS "car_gasoline" = 0.31 := by
  simp [lookupD, GLOBAL_EMISSION_FACTORS, List.lookup]

/-- Factor stored under `motorcycle`. -/
theorem gef_motorcycle : lookupD GLOBAL_EMISSION_FACTORS "motorcycle" = 0.11 := by
  simp [lookupD, GLOBAL_EMISSION_FACTORS, List.lookup]

/-- Factor stored under `bus`. -/
theorem gef_bus : lookupD GLOBAL_EMISSION_FACTORS "bus" = 0.11 := by
  simp [lookupD, GLOBAL_EMISSION_FACTORS, List.lookup]

/-- Factor stored under `train`. -/
theorem gef_train : lookupD GLOBAL_EMISSION_FACTORS "train" = 0.06 := by
  simp [lookupD, GLOBAL_EMISSION_FACTORS, List.lookup]

/-- Factor stored under `plane_short`. -/
theorem gef_plane_short : lookupD GLOBAL_EMISSION_FACTORS "plane_short" = 0.24 := by
  simp [lookupD, GLOBAL_EMISSION_FACTORS, List.lookup]

/-- Factor stored under `lpg_per_kg`. -/
theorem gef_lpg : lookupD GLOBAL_EMISSION_FACTORS "lpg_per_kg" = 3.0 := by
  simp [lookupD, GLOBAL_EMISSION_FACTORS, List.lookup]

/-- Every diet factor key maps to a non-negative factor. -/
theorem gef_diet_nonneg {dk : String}
    (h : dk = "diet_typical" ∨ dk = "diet_meat_regular" ∨ dk = "diet_meat_heavy" ∨
         dk = "diet_average" ∨ dk = "diet_vegetarian" ∨ dk = "diet_vegan") :
    0 ≤ lookupD GLOBAL_EMISSION_FACTORS dk := by
  rcases h with rfl | rfl | rfl | rfl | rfl | rfl <;>
    simp [lookupD, GLOBAL_EMISSION_FACTORS, List.lookup] <;> norm_num

/-- Evaluation of the breakdown on the Africa path when the LPG key is
present (lines 95-99, 107-110, 116, 128-129 of the source). -/
theorem calc_africa_lpg_eq (data : InputRecord) (c : String) (gf e lpg fh : ℚ)
    (d dk : String)
    (hc : data.country = some c)
    (hgf : List.lookup c COUNTRY_GRID_MIX = some gf)
    (he : data.electricity_kwh = some e)
    (hlpg : data.lpg_kg_per_month = some lpg)
    (hfh : data.flight_hours = some fh)
    (hd : data.diet = some d)
    (hdk : List.lookup d diet_map = some dk) :
    calcBreakdown COUNTRY_GRID_MIX GLOBAL_EMISSION_FACTORS data "africa" =
    some [("Housing: Electricity", e * gf * 12),
          ("Housing: Cooking (LPG)", lpg * 3.0 * 12),
          ("Transport: Car", data.car_km_week.getD 0 * 52 * 0.31),
          ("Transport: Motorcycle", data.moto_km_week.getD 0 * 52 * 0.11),
          ("Transport: Bus/Minibus", data.bus_km_week.getD 0 * 52 * 0.11),
          ("Transport: Flights", fh * 500 * 0.24),
          ("Diet", lookupD GLOBAL_EMISSION_FACTORS dk * 365)] := by
  simp [calcBreakdown, hc, hgf, he, hlpg, hfh, hd, hdk, gef_lpg,
        gef_car_gasoline, gef_motorcycle, gef_bus, gef_plane_short]

/-- Evaluation of the breakdown on the Africa path when the LPG key is
absent from the input dict. -/
theorem calc_africa_nolpg_eq (data : InputRecord) (c : String) (gf e fh : ℚ)
    (d dk : String)
    (hc : data.country = some c)
    (hgf : List.lookup c COUNTRY_GRID_MIX = some gf)
    (he : data.electricity_kwh = some e)
    (hlpg : data.lpg_kg_per_month = none)
    (hfh : data.flight_hours = some fh)
    (hd : data.diet = some d)
    (hdk : List.lookup d diet_map = some dk) :
    calcBreakdown COUNTRY_GRID_MIX GLOBAL_EMISSION_FACTORS data "africa" =
    some [("Housing: Electricity", e * gf * 12),
          ("Transport: Car", data.car_km_week.getD 0 * 52 * 0.31),
          ("Transport: Motorcycle", data.moto_km_week.getD 0 * 52 * 0.11),
          ("Transport: Bus/Minibus", data.bus_km_week.getD 0 * 52 * 0.11),
          ("Transport: Flights", fh * 500 * 0.24),
          ("Diet", lookupD GLOBAL_EMISSION_FACTORS dk * 365)] := by
  simp [calcBreakdown, hc, hgf, he, hlpg, hfh, hd, hdk,
        gef_car_gasoline, gef_motorcycle, gef_bus, gef_plane_short]

/-- Evaluation of the breakdown on the non-Africa (global) path
(lines 100-104, 111-114, 116, 128-129 of the source). -/
theorem calc_global_eq (data : InputRecord) (e fh : ℚ) (d dk : String)
    (region : String) (hr : (region == "africa") = false)
    (he : data.electricity_kwh = some e)
    (hfh : data.flight_hours = some fh)
    (hd : data.diet = some d)
    (hdk : List.lookup d diet_map = some dk) :
    calcBreakdown COUNTRY_GRID_MIX GLOBAL_EMISSION_FACTORS data region =
    some [("Housing: Electricity", e * 0.5 * 12),
          ("Housing: Natural Gas", data.natural_gas_therms.getD 0 * 2.0 * 12),
          ("Housing: Heating Oil", data.heating_oil_liters.getD 0 * 2.68 * 12),
          ("Housing: Propane", data.propane_liters.getD 0 * 1.5 * 12),
          ("Transport: Car", data.car_miles_week.getD 0 * 0.31 * 52),
          ("Transport: Bus", data.bus_miles_week.getD 0 * 0.11 * 52),
          ("Transport: Train", data.train_miles_week.getD 0 * 0.06 * 52),
          ("Transport: Flights", fh * 500 * 0.24),
          ("Diet", lookupD GLOBAL_EMISSION_FACTORS dk * 365)] := by
  simp [calcBreakdown, hr, he, hfh, hd, hdk, gef_electricity, gef_natural_gas,
        gef_heating_oil, gef_propane, gef_car_gasoline, gef_bus, gef_train,
        gef_plane_short]

/-- Inversion of a successful Africa-path calculation: the gating keys are
present, the total is the breakdown sum, and the breakdown is the explicit
list the source builds. -/
theorem calc_africa_inv (data : InputRecord) (t : ℚ) (b : List (String × ℚ))
    (h : calculate_carbon_footprint data "africa" = some (t, b)) :
    ∃ c gf e fh d dk, data.country = some c ∧
      List.lookup c COUNTRY_GRID_MIX = some gf ∧
      data.electricity_kwh = some e ∧ data.flight_hours = some fh ∧
      data.diet = some d ∧ List.lookup d diet_map = some dk ∧
      t = breakdownSum b ∧
      ((data.lpg_kg_per_month = none ∧
        b = [("Housing: Electricity", e * gf * 12),
             ("Transport: Car", data.car_km_week.getD 0 * 52 * 0.31),
             ("Transport: Motorcycle", data.moto_km_week.getD 0 * 52 * 0.11),
             ("Transport: Bus/Minibus", data.bus_km_week.getD 0 * 52 * 0.11),
             ("Transport: Flights", fh * 500 * 0.24),
             ("Diet", lookupD GLOBAL_EMISSION_FACTORS dk * 365)]) ∨
       (∃ lpg, data.lpg_kg_per_month = some lpg ∧
        b = [("Housing: Electricity", e * gf * 12),
             ("Housing: Cooking (LPG)", lpg * 3.0 * 12),
             ("Transport: Car", data.car_km_week.getD 0 * 52 * 0.31),
             ("Transport: Motorcycle", data.moto_km_week.getD 0 * 52 * 0.11),
             ("Transport: Bus/Minibus", data.bus_km_week.getD 0 * 52 * 0.11),
             ("Transport: Flights", fh * 500 * 0.24),
             ("Diet", lookupD GLOBAL_EMISSION_FACTORS dk * 365)])) := by
  unfold calculate_carbon_footprint calculate_cf at h
  rcases hc : data.country with _ | c
  · exfalso; simp [calcBreakdown, hc] at h
  rcases hgf : List.lookup c COUNTRY_GRID_MIX with _ | gf
  · exfalso; simp [calcBreakdown, hc, hgf] at h
  rcases he : data.electricity_kwh with _ | e
  · exfalso; simp [calcBreakdown, hc, hgf, he] at h
  rcases hlpg : data.lpg_kg_per_month with _ | lpg
  · rcases hfh : data.flight_hours with _ | fh
    · exfalso; simp [calcBreakdown, hc, hgf, he, hlpg, hfh] at h
    rcases hd : data.diet with _ | d
    · exfalso; simp [calcBreakdown, hc, hgf, he, hlpg, hfh, hd] at h
    rcases hdk : List.lookup d diet_map with _ | dk
    · exfalso; simp [calcBreakdown, hc, hgf, he, hlpg, hfh, hd, hdk] at h
    rw [calc_africa_nolpg_eq data c gf e fh d dk hc hgf he hlpg hfh hd hdk] at h
    simp only [Option.map_some'] at h
    injection h with h2
    injection h2 with ht hb
    subst hb
    exact ⟨c, gf, e, fh, d, dk, rfl, hgf, rfl, rfl, rfl, hdk, ht.symm, Or.inl ⟨rfl, rfl⟩⟩
  · rcases hfh : data.flight_hours with _ | fh
    · exfalso; simp [calcBreakdown, hc, hgf, he, hlpg, hfh] at h
    rcases hd : data.diet with _ | d
    · exfalso; simp [calcBreakdown, hc, hgf, he, hlpg, hfh, hd] at h
    rcases hdk : List.lookup d diet_map with _ | dk
    · exfalso; simp [calcBreakdown, hc, hgf, he, hlpg, hfh, hd, hdk] at h
    rw [calc_africa_lpg_eq data c gf e lpg fh d dk hc hgf he hlpg hfh hd hdk] at h
    simp only [Option.map_some'] at h
    injection h with h2
    injection h2 with ht hb
    subst hb
    exact ⟨c, gf, e, fh, d, dk, rfl, hgf, rfl, rfl, rfl, hdk, ht.symm,
      Or.inr ⟨lpg, rfl, rfl⟩⟩

/-- Inversion of a successful non-Africa (global) calculation. -/
theorem calc_global_inv (data : InputRecord) (t : ℚ) (b : List (String × ℚ))
    (region : String) (hr : (region == "africa") = false)
    (h : calculate_carbon_footprint data region = some (t, b)) :
    ∃ e fh d dk, data.electricity_kwh = some e ∧ data.flight_hours = some fh ∧
      data.diet = some d ∧ List.lookup d diet_map = some dk ∧
      t = breakdownSum b ∧
      b = [("Housing: Electricity", e * 0.5 * 12),
           ("Housing: Natural Gas", data.natural_gas_therms.getD 0 * 2.0 * 12),
           ("Housing: Heating Oil", data.heating_oil_liters.getD 0 * 2.68 * 12),
           ("Housing: Propane", data.propane_liters.getD 0 * 1.5 * 12),
           ("Transport: Car", data.car_miles_week.getD 0 * 0.31 * 52),
           ("Transport: Bus", data.bus_miles_week.getD 0 * 0.11 * 52),
           ("Transport: Train", data.train_miles_week.getD 0 * 0.06 * 52),
           ("Transport: Flights", fh * 500 * 0.24),
           ("Diet", lookupD GLOBAL_EMISSION_FACTORS dk * 365)] := by
  unfold calculate_carbon_footprint calculate_cf at h
  rcases he : data.electricity_kwh with _ | e
  · exfalso; simp [calcBreakdown, hr, he] at h
  rcases hfh : data.flight_hours with _ | fh
  · exfalso; simp [calcBreakdown, hr, he, hfh] at h
  rcases hd : data.diet with _ | d
  · exfalso; simp [calcBreakdown, hr, he, hfh, hd] at h
  rcases hdk : List.lookup d diet_map with _ | dk
  · exfalso; simp [calcBreakdown, hr, he, hfh, hd, hdk] at h
  rw [calc_global_eq data e fh d dk region hr he hfh hd hdk] at h
  simp only [Option.map_some'] at h
  injection h with h2
  injection h2 with ht hb
  subst hb
  exact ⟨e, fh, d, dk, rfl, rfl, rfl, hdk, ht.symm, rfl⟩

/-- Membership in the result of a stable insertion. -/
theorem mem_insertRec {x y : String × ℚ} {l : List (String × ℚ)} :
    y ∈ insertRec x l ↔ y = x ∨ y ∈ l := by
  induction l with
  | nil => simp [insertRec]
  | cons z zs ih =>
    by_cases h : z.2 ≤ x.2
    · simp [insertRec, h]
    · simp [insertRec, h, ih]
      tauto

/-- Stable insertion preserves sortedness by descending savings. -/
theorem pairwise_insertRec {x : String × ℚ} {l : List (String × ℚ)}
    (h : l.Pairwise (fun a b => b.2 ≤ a.2)) :
    (insertRec x l).Pairwise (fun a b => b.2 ≤ a.2) := by
  induction l with
  | nil => simp [insertRec]
  | cons z zs ih =>
    rcases List.pairwise_cons.mp h with ⟨hz, hzs⟩
    by_cases hle : z.2 ≤ x.2
    · simp only [insertRec, if_pos hle]
      refine List.pairwise_cons.mpr ⟨?_, h⟩
      intro y hy
      rcases List.mem_cons.mp hy with rfl | hy2
      · exact hle
      · exact le_trans (hz y hy2) hle
    · simp only [insertRec, if_neg hle]
      refine List.pairwise_cons.mpr ⟨?_, ih hzs⟩
      intro y hy
      rcases mem_insertRec.mp hy with rfl | hy2
      · exact le_of_not_le hle
      · exact hz y hy2

/-- Output of the stable sort is sorted by descending savings. -/
theorem pairwise_sortRecs (l : List (String × ℚ)) :
    (sortRecs l).Pairwise (fun a b => b.2 ≤ a.2) := by
  induction l with
  | nil => exact List.Pairwise.nil
  | cons x xs ih => exact pairwise_insertRec ih

/-- Insertion is stable: restricted to any one savings value, the insertion
behaves like prepending. -/
theorem filter_insertRec (s : ℚ) (x : String × ℚ) (l : List (String × ℚ)) :
    (insertRec x l).filter (fun y => decide (y.2 = s)) =
    (x :: l).filter (fun y => decide (y.2 = s)) := by
  induction l with
  | nil => rfl
  | cons z zs ih =>
    by_cases hle : z.2 ≤ x.2
    · simp only [insertRec, if_pos hle]
    · simp only [insertRec, if_neg hle]
      have hxz : x.2 < z.2 := lt_of_not_le hle
      by_cases hx : x.2 = s
      · have hz : ¬ z.2 = s := fun hzs =>
          absurd (hx.trans hzs.symm) (ne_of_lt hxz)
        simp [List.filter_cons, hx, hz, ih]
      · by_cases hz : z.2 = s
        · simp [List.filter_cons, hx, hz, ih]
        · simp [List.filter_cons, hx, hz, ih]

/-- Sorting is stable: restricted to any one savings value, the sorted
list lists the same recommendations in the same order as the input. -/
theorem filter_sortRecs (s : ℚ) (l : List (String × ℚ)) :
    (sortRecs l).filter (fun y => decide (y.2 = s)) =
    l.filter (fun y => decide (y.2 = s)) := by
  induction l with
  | nil => rfl
  | cons x xs ih =>
    calc (sortRecs (x :: xs)).filter (fun y => decide (y.2 = s))
        = ((x :: sortRecs xs)).filter (fun y => decide (y.2 = s)) :=
          filter_insertRec s x (sortRecs xs)
      _ = (x :: xs).filter (fun y => decide (y.2 = s)) := by
          by_cases hx : x.2 = s <;> simp [List.filter, hx, ih]

/-- C1: for every input record and region for which
`calculate_carbon_footprint` returns a result, the returned total equals
the exact rational sum of the values of the returned breakdown mapping,
with no rounding. -/
theorem C1_total_is_exact_sum (data : InputRecord) (region : String)
    (t : ℚ) (b : List (String × ℚ))
    (h : calculate_carbon_footprint data region = some (t, b)) :
    t = (b.map Prod.snd).sum := by
  unfold calculate_carbon_footprint calculate_cf at h
  cases hb : calcBreakdown COUNTRY_GRID_MIX GLOBAL_EMISSION_FACTORS data region with
  | none => rw [hb] at h; simp at h
  | some b0 =>
    rw [hb] at h
    simp only [Option.map_some'] at h
    injection h with h2
    injection h2 with ht hbb
    subst hbb
    exact ht.symm

/-- Witness for C1 at the all-zero global Vegan scenario: total 438. -/
theorem C1_total_is_exact_sum_witness :
    (438 : ℚ) =
      (([("Housing: Electricity", (0 : ℚ)), ("Housing: Natural Gas", 0),
         ("Housing: Heating Oil", 0), ("Housing: Propane", 0),
         ("Transport: Car", 0), ("Transport: Bus", 0), ("Transport: Train", 0),
         ("Transport: Flights", 0), ("Diet", 438)]).map Prod.snd).sum :=
  C1_total_is_exact_sum
    { electricity_kwh := some 0, natural_gas_therms := some 0,
      heating_oil_liters := some 0, propane_liters := some 0,
      car_miles_week := some 0, bus_miles_week := some 0,
      train_miles_week := some 0, flight_hours := some 0,
      diet := some "Vegan" }
    "global" 438 _
    (by simp [calculate_carbon_footprint, calculate_cf, calcBreakdown, lookupD,
              COUNTRY_GRID_MIX, GLOBAL_EMISSION_FACTORS, diet_map, breakdownSum,
              List.lookup] <;> norm_num)

/-- C2: on the Africa path, Housing: Electricity is monthly kWh times the
grid factor of the selected country times 12, Housing: Cooking (LPG), when the
LPG key is present, is monthly kg times 3.0 times 12, Diet is the diet
factor times 365; and for the Kenya scenario (factor 0.3, 100 kWh, 6 kg
LPG, Vegan, all transport and flights 0) the total is 360+216+438 = 1014. -/
theorem C2_africa_housing_diet (data : InputRecord) (c : String) (gf e : ℚ)
    (t : ℚ) (b : List (String × ℚ))
    (hc : data.country = some c)
    (hgf : List.lookup c COUNTRY_GRID_MIX = some gf)
    (he : data.electricity_kwh = some e)
    (h : calculate_carbon_footprint data "africa" = some (t, b)) :
    lookupB b "Housing: Electricity" = e * gf * 12 ∧
    (∀ lpg, data.lpg_kg_per_month = some lpg →
        lookupB b "Housing: Cooking (LPG)" = lpg * 3.0 * 12) ∧
    (∀ d dk, data.diet = some d → List.lookup d diet_map = some dk →
        lookupB b "Diet" = lookupD GLOBAL_EMISSION_FACTORS dk * 365) ∧
    calculate_carbon_footprint
      { country := some "Kenya (Geothermal/Hydro)", electricity_kwh := some 100,
        lpg_kg_per_month := some 6, car_km_week := some 0, moto_km_week := some 0,
        bus_km_week := some 0, flight_hours := some 0, diet := some "Vegan" }
      "africa"
    = some (1014,
        [("Housing: Electricity", 360), ("Housing: Cooking (LPG)", 216),
         ("Transport: Car", 0), ("Transport: Motorcycle", 0),
         ("Transport: Bus/Minibus", 0), ("Transport: Flights", 0),
         ("Diet", 438)]) := by
  obtain ⟨c', gf', e', fh, d, dk, hc', hgf', he', hfh, hd, hdk, ht, hcase⟩ :=
    calc_africa_inv data t b h
  have hcc : c = c' := by
    have := hc.symm.trans hc'
    injection this
  subst hcc
  have hgg : gf = gf' := by
    have := hgf.symm.trans hgf'
    injection this
  subst hgg
  have hee : e = e' := by
    have := he.symm.trans he'
    injection this
  subst hee
  have hscenario :
      calculate_carbon_footprint
        { country := some "Kenya (Geothermal/Hydro)", electricity_kwh := some 100,
          lpg_kg_per_month := some 6, car_km_week := some 0, moto_km_week := some 0,
          bus_km_week := some 0, flight_hours := some 0, diet := some "Vegan" }
        "africa"
      = some (1014,
          [("Housing: Electricity", 360), ("Housing: Cooking (LPG)", 216),
           ("Transport: Car", 0), ("Transport: Motorcycle", 0),
           ("Transport: Bus/Minibus", 0), ("Transport: Flights", 0),
           ("Diet", 438)]) := by
    simp [calculate_carbon_footprint, calculate_cf, calcBreakdown, lookupD,
          COUNTRY_GRID_MIX, GLOBAL_EMISSION_FACTORS, diet_map, breakdownSum,
          List.lookup] <;> norm_num
  rcases hcase with ⟨hlpg, hb⟩ | ⟨lpg, hlpg, hb⟩ <;> subst hb
  · refine ⟨by simp [lookupB, List.lookup], ?_, ?_, hscenario⟩
    · intro lpg hl
      rw [hlpg] at hl
      exact absurd hl (by simp)
    · intro d' dk' hd' hdk'
      have hdd : d' = d := by
        have := hd'.symm.trans hd
        injection this
      subst hdd
      have hkk : dk' = dk := by
        have := hdk'.symm.trans hdk
        injection this
      subst hkk
      simp [lookupB, List.lookup]
  · refine ⟨by simp [lookupB, List.lookup], ?_, ?_, hscenario⟩
    · intro lpg' hl
      have hll : lpg' = lpg := by
        have := hl.symm.trans hlpg
        injection this
      subst hll
      simp [lookupB, List.lookup]
    · intro d' dk' hd' hdk'
      have hdd : d' = d := by
        have := hd'.symm.trans hd
        injection this
      subst hdd
      have hkk : dk' = dk := by
        have := hdk'.symm.trans hdk
        injection this
      subst hkk
      simp [lookupB, List.lookup]

/-- Witness for C2 at the Kenya scenario itself. -/
theorem C2_africa_housing_diet_witness :
    lookupB
      [("Housing: Electricity", (360 : ℚ)), ("Housing: Cooking (LPG)", 216),
       ("Transport: Car", 0), ("Transport: Motorcycle", 0),
       ("Transport: Bus/Minibus", 0), ("Transport: Flights", 0), ("Diet", 438)]
      "Housing: Electricity" = 100 * 0.3 * 12 :=
  (C2_africa_housing_diet
    { country := some "Kenya (Geothermal/Hydro)", electricity_kwh := some 100,
      lpg_kg_per_month := some 6, car_km_week := some 0, moto_km_week := some 0,
      bus_km_week := some 0, flight_hours := some 0, diet := some "Vegan" }
    "Kenya (Geothermal/Hydro)" 0.3 100 1014
    [("Housing: Electricity", 360), ("Housing: Cooking (LPG)", 216),
     ("Transport: Car", 0), ("Transport: Motorcycle", 0),
     ("Transport: Bus/Minibus", 0), ("Transport: Flights", 0), ("Diet", 438)]
    rfl
    (by simp [COUNTRY_GRID_MIX, List.lookup] <;> norm_num)
    rfl
    (by simp [calculate_carbon_footprint, calculate_cf, calcBreakdown, lookupD,
              COUNTRY_GRID_MIX, GLOBAL_EMISSION_FACTORS, diet_map, breakdownSum,
              List.lookup] <;> norm_num)).1

/-- C3: on the Africa path every transport category is the weekly
kilometre distance times 52 times the per-mile factor of the table, with
no mile/km conversion; in particular Transport: Car is
`car_km_week * 52 * 0.31`. -/
theorem C3_africa_transport_km (data : InputRecord) (t : ℚ)
    (b : List (String × ℚ))
    (h : calculate_carbon_footprint data "africa" = some (t, b)) :
    lookupB b "Transport: Car" = data.car_km_week.getD 0 * 52 * 0.31 ∧
    lookupB b "Transport: Motorcycle" = data.moto_km_week.getD 0 * 52 * 0.11 ∧
    lookupB b "Transport: Bus/Minibus" = data.bus_km_week.getD 0 * 52 * 0.11 := by
  obtain ⟨c, gf, e, fh, d, dk, hc, hgf, he, hfh, hd, hdk, ht, hcase⟩ :=
    calc_africa_inv data t b h
  rcases hcase with ⟨hl, hb⟩ | ⟨lpg, hl, hb⟩ <;> subst hb <;>
    exact ⟨by simp [lookupB, List.lookup], by simp [lookupB, List.lookup],
           by simp [lookupB, List.lookup]⟩

/-- Witness for C3: 10 km of weekly car travel yields 10 × 52 × 0.31. -/
theorem C3_africa_transport_km_witness :
    lookupB
      [("Housing: Electricity", (0 : ℚ)),
       ("Transport: Car", 161.2), ("Transport: Motorcycle", 0),
       ("Transport: Bus/Minibus", 0), ("Transport: Flights", 0), ("Diet", 438)]
      "Transport: Car" = (some (10 : ℚ)).getD 0 * 52 * 0.31 :=
  (C3_africa_transport_km
    { country := some "Ethiopia (Hydro-dominated)", electricity_kwh := some 0,
      car_km_week := some 10, flight_hours := some 0, diet := some "Vegan" }
    599.2
    [("Housing: Electricity", 0),
     ("Transport: Car", 161.2), ("Transport: Motorcycle", 0),
     ("Transport: Bus/Minibus", 0), ("Transport: Flights", 0), ("Diet", 438)]
    (by simp [calculate_carbon_footprint, calculate_cf, calcBreakdown, lookupD,
              COUNTRY_GRID_MIX, GLOBAL_EMISSION_FACTORS, diet_map, breakdownSum,
              List.lookup] <;> norm_num)).1


/-- C4 counterexample: called directly with the sentinel country, the
engine raises no error and returns a numeric result (the sentinel is an
ordinary key of the grid table, with factor 0). -/
theorem C4_counterexample :
    calculate_carbon_footprint
      { country := some "Select Country", electricity_kwh := some 100,
        flight_hours := some 0, diet := some "Vegan" } "africa"
    = some (438,
        [("Housing: Electricity", 0), ("Transport: Car", 0),
         ("Transport: Motorcycle", 0), ("Transport: Bus/Minibus", 0),
         ("Transport: Flights", 0), ("Diet", 438)]) := by
  simp [calculate_carbon_footprint, calculate_cf, calcBreakdown, lookupD,
        COUNTRY_GRID_MIX, GLOBAL_EMISSION_FACTORS, diet_map, breakdownSum,
        List.lookup] <;> norm_num

/-- C4 (amended): the sentinel is rejected by the caller-side gate
`valid_input`, not by the engine: `valid_input` is false for region
"Africa" with the sentinel country, so the calculation is never invoked;
the engine itself, called with the sentinel, computes with grid factor 0
(the electricity entry is 0), and a missing country key makes it fail. -/
theorem C4_caller_gate (data : InputRecord) :
    (data.country = some "Select Country" → valid_input "Africa" data = false) ∧
    (data.country = none → calculate_carbon_footprint data "africa" = none) ∧
    (∀ t b, data.country = some "Select Country" →
      calculate_carbon_footprint data "africa" = some (t, b) →
      lookupB b "Housing: Electricity" = 0) := by
  refine ⟨?_, ?_, ?_⟩
  · intro h
    simp [valid_input, h]
  · intro h
    simp [calculate_carbon_footprint, calculate_cf, calcBreakdown, h]
  · intro t b hsent h
    obtain ⟨c, gf, e, fh, d, dk, hc, hgf, he, hfh, hd, hdk, ht, hcase⟩ :=
      calc_africa_inv data t b h
    have hcc : c = "Select Country" := by
      have := hc.symm.trans hsent
      injection this
    subst hcc
    have hgf0 : gf = 0 := by
      have h0 : List.lookup "Select Country" COUNTRY_GRID_MIX = some 0 := by
        simp [COUNTRY_GRID_MIX, List.lookup] <;> norm_num
      have := hgf.symm.trans h0
      injection this
    subst hgf0
    rcases hcase with ⟨hl, hb⟩ | ⟨lpg, hl, hb⟩ <;> subst hb <;>
      simp [lookupB, List.lookup]

/-- Witness for C4 at concrete sentinel and missing-country inputs. -/
theorem C4_caller_gate_witness :
    valid_input "Africa"
      { country := some "Select Country", electricity_kwh := some 100,
        flight_hours := some 0, diet := some "Vegan" } = false ∧
    calculate_carbon_footprint
      { electricity_kwh := some 100, flight_hours := some 0,
        diet := some "Vegan" } "africa" = none ∧
    lookupB
      [("Housing: Electricity", (0 : ℚ)), ("Transport: Car", 0),
       ("Transport: Motorcycle", 0), ("Transport: Bus/Minibus", 0),
       ("Transport: Flights", 0), ("Diet", 438)] "Housing: Electricity" = 0 :=
  ⟨(C4_caller_gate
      { country := some "Select Country", electricity_kwh := some 100,
        flight_hours := some 0, diet := some "Vegan" }).1 rfl,
   (C4_caller_gate
      { electricity_kwh := some 100, flight_hours := some 0,
        diet := some "Vegan" }).2.1 rfl,
   (C4_caller_gate
      { country := some "Select Country", electricity_kwh := some 100,
        flight_hours := some 0, diet := some "Vegan" }).2.2 438
     [("Housing: Electricity", 0), ("Transport: Car", 0),
      ("Transport: Motorcycle", 0), ("Transport: Bus/Minibus", 0),
      ("Transport: Flights", 0), ("Diet", 438)] rfl
     (by simp [calculate_carbon_footprint, calculate_cf, calcBreakdown, lookupD,
               COUNTRY_GRID_MIX, GLOBAL_EMISSION_FACTORS, diet_map, breakdownSum,
               List.lookup] <;> norm_num)⟩

/-- C5 counterexample: the diet map is shared between the regions, so the
label "Meat-Heavy" is accepted under the africa region and computes
3.3 × 365 = 1204.5, instead of failing with an InvalidInput error. -/
theorem C5_counterexample :
    calculate_carbon_footprint
      { country := some "Kenya (Geothermal/Hydro)", electricity_kwh := some 0,
        flight_hours := some 0, diet := some "Meat-Heavy" } "africa"
    = some (1204.5,
        [("Housing: Electricity", 0), ("Transport: Car", 0),
         ("Transport: Motorcycle", 0), ("Transport: Bus/Minibus", 0),
         ("Transport: Flights", 0), ("Diet", 1204.5)]) := by
  simp [calculate_carbon_footprint, calculate_cf, calcBreakdown, lookupD,
        COUNTRY_GRID_MIX, GLOBAL_EMISSION_FACTORS, diet_map, breakdownSum,
        List.lookup] <;> norm_num

/-- C5 (amended): a diet label outside the one shared six-entry map makes
the whole calculation fail with a key error under either region (never a
defaulted factor, never a 0 result); labels inside the map are accepted
under both regions, the per-region restriction existing only in the UI. -/
theorem C5_unknown_diet (data : InputRecord) (region : String) (d : String)
    (hd : data.diet = some d)
    (hnone : List.lookup d diet_map = none) :
    calculate_carbon_footprint data region = none := by
  cases hcalc : calculate_carbon_footprint data region with
  | none => rfl
  | some p =>
    exfalso
    obtain ⟨t, b⟩ := p
    by_cases hr : (region == "africa") = true
    · have hr2 : region = "africa" := by simpa using hr
      subst hr2
      obtain ⟨c, gf, e, fh, d2, dk, hc, hgf, he, hfh, hd2, hdk, ht, hcase⟩ :=
        calc_africa_inv data t b hcalc
      have hdd : d2 = d := by
        have := hd2.symm.trans hd
        injection this
      subst hdd
      rw [hnone] at hdk
      exact absurd hdk (by simp)
    · have hr2 : (region == "africa") = false := by simpa using hr
      obtain ⟨e, fh, d2, dk, he, hfh, hd2, hdk, ht, hb⟩ :=
        calc_global_inv data t b region hr2 hcalc
      have hdd : d2 = d := by
        have := hd2.symm.trans hd
        injection this
      subst hdd
      rw [hnone] at hdk
      exact absurd hdk (by simp)

/-- Witness for C5 at a typo label under the global region. -/
theorem C5_unknown_diet_witness :
    calculate_carbon_footprint
      { electricity_kwh := some 100, flight_hours := some 0,
        diet := some "Vegann" } "global" = none :=
  C5_unknown_diet
    { electricity_kwh := some 100, flight_hours := some 0,
      diet := some "Vegann" } "global" "Vegann" rfl
    (by simp [diet_map, List.lookup])

/-- C6 counterexample: a negative electricity quantity is not rejected;
the engine returns a numeric result with a negative breakdown entry. -/
theorem C6_counterexample :
    calculate_carbon_footprint
      { electricity_kwh := some (-100), flight_hours := some 0,
        diet := some "Vegan" } "global"
    = some (-162,
        [("Housing: Electricity", -600), ("Housing: Natural Gas", 0),
         ("Housing: Heating Oil", 0), ("Housing: Propane", 0),
         ("Transport: Car", 0), ("Transport: Bus", 0), ("Transport: Train", 0),
         ("Transport: Flights", 0), ("Diet", 438)]) := by
  simp [calculate_carbon_footprint, calculate_cf, calcBreakdown, lookupD,
        COUNTRY_GRID_MIX, GLOBAL_EMISSION_FACTORS, diet_map, breakdownSum,
        List.lookup] <;> norm_num

/-- C6 (amended): the engine performs no sign check on numeric inputs: for
every electricity value v and flight hours f, including negative ones, it
returns a result scaling v linearly; non-negativity of inputs is enforced
only upstream, by the UI slider minima. -/
theorem C6_no_negativity_check (v f : ℚ) :
    calculate_carbon_footprint
      { electricity_kwh := some v, flight_hours := some f,
        diet := some "Vegan" } "global"
    = some (v * 0.5 * 12 + f * 500 * 0.24 + 438,
        [("Housing: Electricity", v * 0.5 * 12), ("Housing: Natural Gas", 0),
         ("Housing: Heating Oil", 0), ("Housing: Propane", 0),
         ("Transport: Car", 0), ("Transport: Bus", 0), ("Transport: Train", 0),
         ("Transport: Flights", f * 500 * 0.24), ("Diet", 438)]) := by
  simp [calculate_carbon_footprint, calculate_cf, calcBreakdown, lookupD,
        COUNTRY_GRID_MIX, GLOBAL_EMISSION_FACTORS, diet_map, breakdownSum,
        List.lookup] <;> ring_nf <;> norm_num


/-- C7 counterexample: `electricity_kwh` is read with a raising access, so
omitting it is a key error under the global region, not the same as
supplying 0 (which succeeds). -/
theorem C7_counterexample :
    calculate_carbon_footprint
      { flight_hours := some 0, diet := some "Vegan" } "global" = none ∧
    calculate_carbon_footprint
      { electricity_kwh := some 0, flight_hours := some 0,
        diet := some "Vegan" } "global"
    = some (438,
        [("Housing: Electricity", 0), ("Housing: Natural Gas", 0),
         ("Housing: Heating Oil", 0), ("Housing: Propane", 0),
         ("Transport: Car", 0), ("Transport: Bus", 0), ("Transport: Train", 0),
         ("Transport: Flights", 0), ("Diet", 438)]) := by
  constructor
  · rfl
  · simp [calculate_carbon_footprint, calculate_cf, calcBreakdown, lookupD,
          COUNTRY_GRID_MIX, GLOBAL_EMISSION_FACTORS, diet_map, breakdownSum,
          List.lookup] <;> norm_num

/-- C7 (amended): each numeric field read through `.get(key, 0)` —
`natural_gas_therms`, `heating_oil_liters`, `propane_liters`,
`car_miles_week`, `bus_miles_week`, `train_miles_week`, `car_km_week`,
`moto_km_week`, `bus_km_week` — can be omitted and that is identical to
supplying 0; for `lpg_kg_per_month` omission drops the LPG entry but
leaves the total unchanged compared to supplying 0; `electricity_kwh`,
`flight_hours` and `diet` are instead required (raising accesses). -/
theorem C7_optional_defaults (data : InputRecord) (region : String) :
    (calculate_carbon_footprint { data with natural_gas_therms := none } region =
      calculate_carbon_footprint { data with natural_gas_therms := some 0 } region) ∧
    (calculate_carbon_footprint { data with heating_oil_liters := none } region =
      calculate_carbon_footprint { data with heating_oil_liters := some 0 } region) ∧
    (calculate_carbon_footprint { data with propane_liters := none } region =
      calculate_carbon_footprint { data with propane_liters := some 0 } region) ∧
    (calculate_carbon_footprint { data with car_miles_week := none } region =
      calculate_carbon_footprint { data with car_miles_week := some 0 } region) ∧
    (calculate_carbon_footprint { data with bus_miles_week := none } region =
      calculate_carbon_footprint { data with bus_miles_week := some 0 } region) ∧
    (calculate_carbon_footprint { data with train_miles_week := none } region =
      calculate_carbon_footprint { data with train_miles_week := some 0 } region) ∧
    (calculate_carbon_footprint { data with car_km_week := none } region =
      calculate_carbon_footprint { data with car_km_week := some 0 } region) ∧
    (calculate_carbon_footprint { data with moto_km_week := none } region =
      calculate_carbon_footprint { data with moto_km_week := some 0 } region) ∧
    (calculate_carbon_footprint { data with bus_km_week := none } region =
      calculate_carbon_footprint { data with bus_km_week := some 0 } region) ∧
    ((calculate_carbon_footprint { data with lpg_kg_per_month := none } region).map
        Prod.fst =
      (calculate_carbon_footprint { data with lpg_kg_per_month := some 0 } region).map
        Prod.fst) := by
  refine ⟨rfl, rfl, rfl, rfl, rfl, rfl, rfl, rfl, rfl, ?_⟩
  by_cases hr : (region == "africa") = true
  · unfold calculate_carbon_footprint calculate_cf
    rcases hc : data.country with _ | c
    · simp [calcBreakdown, hc, hr]
    rcases hgf : List.lookup c COUNTRY_GRID_MIX with _ | gf
    · simp [calcBreakdown, hc, hgf, hr]
    rcases he : data.electricity_kwh with _ | e
    · simp [calcBreakdown, hc, hgf, he, hr]
    rcases hfh : data.flight_hours with _ | fh
    · simp [calcBreakdown, hc, hgf, he, hfh, hr]
    rcases hd : data.diet with _ | d
    · simp [calcBreakdown, hc, hgf, he, hfh, hd, hr]
    rcases hdk : List.lookup d diet_map with _ | dk
    · simp [calcBreakdown, hc, hgf, he, hfh, hd, hdk, hr]
    · simp [calcBreakdown, hc, hgf, he, hfh, hd, hdk, hr, breakdownSum]
  · have hr2 : (region == "africa") = false := by simpa using hr
    simp [calculate_carbon_footprint, calculate_cf, calcBreakdown, hr2]


/-- Unification of two successful lookups of the same option. -/
theorem option_some_unify {α : Type _} {o : Option α} {a b : α}
    (h1 : o = some a) (h2 : o = some b) : a = b := by
  rw [h1] at h2
  injection h2

/-- C8: for every valid input and region, increasing one numeric input
field while holding all others fixed never decreases the corresponding
breakdown category value and never decreases the returned total. -/
theorem C8_monotonicity (f : NumField) (v1 v2 : ℚ) (data : InputRecord)
    (region : String) (t1 t2 : ℚ) (b1 b2 : List (String × ℚ))
    (hv : v1 ≤ v2)
    (h1 : calculate_carbon_footprint (setNum f v1 data) region = some (t1, b1))
    (h2 : calculate_carbon_footprint (setNum f v2 data) region = some (t2, b2)) :
    lookupB b1 (catOf f) ≤ lookupB b2 (catOf f) ∧ t1 ≤ t2 := by
  cases f with
  | electricity_kwh =>
    by_cases hr : (region == "africa") = true
    ·
      have hreg : region = "africa" := by simpa using hr
      subst hreg
      obtain ⟨c1, gf1, e1, fh1, d1, dk1, hc1, hgf1, he1, hfh1, hd1, hdk1, ht1, hcase1⟩ :=
        calc_africa_inv _ t1 b1 h1
      obtain ⟨c2, gf2, e2, fh2, d2, dk2, hc2, hgf2, he2, hfh2, hd2, hdk2, ht2, hcase2⟩ :=
        calc_africa_inv _ t2 b2 h2
      simp only [setNum] at hc1 he1 hfh1 hd1 hcase1 hc2 he2 hfh2 hd2 hcase2
      obtain rfl := option_some_unify hc1 hc2
      obtain rfl := option_some_unify hgf1 hgf2
      injection he1 with hee1
      subst hee1
      injection he2 with hee2
      subst hee2
      obtain rfl := option_some_unify hfh1 hfh2
      obtain rfl := option_some_unify hd1 hd2
      obtain rfl := option_some_unify hdk1 hdk2
      rcases hcase1 with ⟨hl1, hb1⟩ | ⟨l1, hl1, hb1⟩ <;>
        rcases hcase2 with ⟨hl2, hb2⟩ | ⟨l2, hl2, hb2⟩
      · subst hb1; subst hb2; subst ht1; subst ht2
        refine ⟨?_, ?_⟩ <;> simp [catOf, lookupB, List.lookup, breakdownSum] <;>
          nlinarith [mul_nonneg (sub_nonneg.mpr hv) (grid_nonneg hgf1), hv]
      · simp [hl1] at hl2
      · simp [hl2] at hl1
      · obtain rfl := option_some_unify hl1 hl2
        subst hb1; subst hb2; subst ht1; subst ht2
        refine ⟨?_, ?_⟩ <;> simp [catOf, lookupB, List.lookup, breakdownSum] <;>
          nlinarith [mul_nonneg (sub_nonneg.mpr hv) (grid_nonneg hgf1), hv]
    ·
      have hr2 : (region == "africa") = false := by simpa using hr
      obtain ⟨e1, fh1, d1, dk1, he1, hfh1, hd1, hdk1, ht1, hb1⟩ :=
        calc_global_inv _ t1 b1 region hr2 h1
      obtain ⟨e2, fh2, d2, dk2, he2, hfh2, hd2, hdk2, ht2, hb2⟩ :=
        calc_global_inv _ t2 b2 region hr2 h2
      simp only [setNum] at he1 hfh1 hd1 hb1 he2 hfh2 hd2 hb2
      injection he1 with hee1
      subst hee1
      injection he2 with hee2
      subst hee2
      obtain rfl := option_some_unify hfh1 hfh2
      obtain rfl := option_some_unify hd1 hd2
      obtain rfl := option_some_unify hdk1 hdk2
      subst hb1; subst hb2; subst ht1; subst ht2
      refine ⟨?_, ?_⟩ <;> simp [catOf, lookupB, List.lookup, breakdownSum] <;>
        linarith
  | natural_gas_therms =>
    by_cases hr : (region == "africa") = true
    ·
      have hreg : region = "africa" := by simpa using hr
      subst hreg
      obtain ⟨c1, gf1, e1, fh1, d1, dk1, hc1, hgf1, he1, hfh1, hd1, hdk1, ht1, hcase1⟩ :=
        calc_africa_inv _ t1 b1 h1
      obtain ⟨c2, gf2, e2, fh2, d2, dk2, hc2, hgf2, he2, hfh2, hd2, hdk2, ht2, hcase2⟩ :=
        calc_africa_inv _ t2 b2 h2
      simp only [setNum] at hc1 he1 hfh1 hd1 hcase1 hc2 he2 hfh2 hd2 hcase2
      obtain rfl := option_some_unify hc1 hc2
      obtain rfl := option_some_unify hgf1 hgf2
      obtain rfl := option_some_unify he1 he2
      obtain rfl := option_some_unify hfh1 hfh2
      obtain rfl := option_some_unify hd1 hd2
      obtain rfl := option_some_unify hdk1 hdk2
      rcases hcase1 with ⟨hl1, hb1⟩ | ⟨l1, hl1, hb1⟩ <;>
        rcases hcase2 with ⟨hl2, hb2⟩ | ⟨l2, hl2, hb2⟩
      · subst hb1; subst hb2; subst ht1; subst ht2
        refine ⟨?_, ?_⟩ <;> simp [catOf, lookupB, List.lookup, breakdownSum] <;>
          linarith
      · simp [hl1] at hl2
      · simp [hl2] at hl1
      · obtain rfl := option_some_unify hl1 hl2
        subst hb1; subst hb2; subst ht1; subst ht2
        refine ⟨?_, ?_⟩ <;> simp [catOf, lookupB, List.lookup, breakdownSum] <;>
          linarith
    ·
      have hr2 : (region == "africa") = false := by simpa using hr
      obtain ⟨e1, fh1, d1, dk1, he1, hfh1, hd1, hdk1, ht1, hb1⟩ :=
        calc_global_inv _ t1 b1 region hr2 h1
      obtain ⟨e2, fh2, d2, dk2, he2, hfh2, hd2, hdk2, ht2, hb2⟩ :=
        calc_global_inv _ t2 b2 region hr2 h2
      simp only [setNum] at he1 hfh1 hd1 hb1 he2 hfh2 hd2 hb2
      obtain rfl := option_some_unify he1 he2
      obtain rfl := option_some_unify hfh1 hfh2
      obtain rfl := option_some_unify hd1 hd2
      obtain rfl := option_some_unify hdk1 hdk2
      subst hb1; subst hb2; subst ht1; subst ht2
      refine ⟨?_, ?_⟩ <;> simp [catOf, lookupB, List.lookup, breakdownSum] <;>
        linarith
  | heating_oil_liters =>
    by_cases hr : (region == "africa") = true
    ·
      have hreg : region = "africa" := by simpa using hr
      subst hreg
      obtain ⟨c1, gf1, e1, fh1, d1, dk1, hc1, hgf1, he1, hfh1, hd1, hdk1, ht1, hcase1⟩ :=
        calc_africa_inv _ t1 b1 h1
      obtain ⟨c2, gf2, e2, fh2, d2, dk2, hc2, hgf2, he2, hfh2, hd2, hdk2, ht2, hcase2⟩ :=
        calc_africa_inv _ t2 b2 h2
      simp only [setNum] at hc1 he1 hfh1 hd1 hcase1 hc2 he2 hfh2 hd2 hcase2
      obtain rfl := option_some_unify hc1 hc2
      obtain rfl := option_some_unify hgf1 hgf2
      obtain rfl := option_some_unify he1 he2
      obtain rfl := option_some_unify hfh1 hfh2
      obtain rfl := option_some_unify hd1 hd2
      obtain rfl := option_some_unify hdk1 hdk2
      rcases hcase1 with ⟨hl1, hb1⟩ | ⟨l1, hl1, hb1⟩ <;>
        rcases hcase2 with ⟨hl2, hb2⟩ | ⟨l2, hl2, hb2⟩
      · subst hb1; subst hb2; subst ht1; subst ht2
        refine ⟨?_, ?_⟩ <;> simp [catOf, lookupB, List.lookup, breakdownSum] <;>
          linarith
      · simp [hl1] at hl2
      · simp [hl2] at hl1
      · obtain rfl := option_some_unify hl1 hl2
        subst hb1; subst hb2; subst ht1; subst ht2
        refine ⟨?_, ?_⟩ <;> simp [catOf, lookupB, List.lookup, breakdownSum] <;>
          linarith
    ·
      have hr2 : (region == "africa") = false := by simpa using hr
      obtain ⟨e1, fh1, d1, dk1, he1, hfh1, hd1, hdk1, ht1, hb1⟩ :=
        calc_global_inv _ t1 b1 region hr2 h1
      obtain ⟨e2, fh2, d2, dk2, he2, hfh2, hd2, hdk2, ht2, hb2⟩ :=
        calc_global_inv _ t2 b2 region hr2 h2
      simp only [setNum] at he1 hfh1 hd1 hb1 he2 hfh2 hd2 hb2
      obtain rfl := option_some_unify he1 he2
      obtain rfl := option_some_unify hfh1 hfh2
      obtain rfl := option_some_unify hd1 hd2
      obtain rfl := option_some_unify hdk1 hdk2
      subst hb1; subst hb2; subst ht1; subst ht2
      refine ⟨?_, ?_⟩ <;> simp [catOf, lookupB, List.lookup, breakdownSum] <;>
        linarith
  | propane_liters =>
    by_cases hr : (region == "africa") = true
    ·
      have hreg : region = "africa" := by simpa using hr
      subst hreg
      obtain ⟨c1, gf1, e1, fh1, d1, dk1, hc1, hgf1, he1, hfh1, hd1, hdk1, ht1, hcase1⟩ :=
        calc_africa_inv _ t1 b1 h1
      obtain ⟨c2, gf2, e2, fh2, d2, dk2, hc2, hgf2, he2, hfh2, hd2, hdk2, ht2, hcase2⟩ :=
        calc_africa_inv _ t2 b2 h2
      simp only [setNum] at hc1 he1 hfh1 hd1 hcase1 hc2 he2 hfh2 hd2 hcase2
      obtain rfl := option_some_unify hc1 hc2
      obtain rfl := option_some_unify hgf1 hgf2
      obtain rfl := option_some_unify he1 he2
      obtain rfl := option_some_unify hfh1 hfh2
      obtain rfl := option_some_unify hd1 hd2
      obtain rfl := option_some_unify hdk1 hdk2
      rcases hcase1 with ⟨hl1, hb1⟩ | ⟨l1, hl1, hb1⟩ <;>
        rcases hcase2 with ⟨hl2, hb2⟩ | ⟨l2, hl2, hb2⟩
      · subst hb1; subst hb2; subst ht1; subst ht2
        refine ⟨?_, ?_⟩ <;> simp [catOf, lookupB, List.lookup, breakdownSum] <;>
          linarith
      · simp [hl1] at hl2
      · simp [hl2] at hl1
      · obtain rfl := option_some_unify hl1 hl2
        subst hb1; subst hb2; subst ht1; subst ht2
        refine ⟨?_, ?_⟩ <;> simp [catOf, lookupB, List.lookup, breakdownSum] <;>
          linarith
    ·
      have hr2 : (region == "africa") = false := by simpa using hr
      obtain ⟨e1, fh1, d1, dk1, he1, hfh1, hd1, hdk1, ht1, hb1⟩ :=
        calc_global_inv _ t1 b1 region hr2 h1
      obtain ⟨e2, fh2, d2, dk2, he2, hfh2, hd2, hdk2, ht2, hb2⟩ :=
        calc_global_inv _ t2 b2 region hr2 h2
      simp only [setNum] at he1 hfh1 hd1 hb1 he2 hfh2 hd2 hb2
      obtain rfl := option_some_unify he1 he2
      obtain rfl := option_some_unify hfh1 hfh2
      obtain rfl := option_some_unify hd1 hd2
      obtain rfl := option_some_unify hdk1 hdk2
      subst hb1; subst hb2; subst ht1; subst ht2
      refine ⟨?_, ?_⟩ <;> simp [catOf, lookupB, List.lookup, breakdownSum] <;>
        linarith
  | lpg_kg_per_month =>
    by_cases hr : (region == "africa") = true
    ·
      have hreg : region = "africa" := by simpa using hr
      subst hreg
      obtain ⟨c1, gf1, e1, fh1, d1, dk1, hc1, hgf1, he1, hfh1, hd1, hdk1, ht1, hcase1⟩ :=
        calc_africa_inv _ t1 b1 h1
      obtain ⟨c2, gf2, e2, fh2, d2, dk2, hc2, hgf2, he2, hfh2, hd2, hdk2, ht2, hcase2⟩ :=
        calc_africa_inv _ t2 b2 h2
      simp only [setNum] at hc1 he1 hfh1 hd1 hcase1 hc2 he2 hfh2 hd2 hcase2
      obtain rfl := option_some_unify hc1 hc2
      obtain rfl := option_some_unify hgf1 hgf2
      obtain rfl := option_some_unify he1 he2
      obtain rfl := option_some_unify hfh1 hfh2
      obtain rfl := option_some_unify hd1 hd2
      obtain rfl := option_some_unify hdk1 hdk2
      rcases hcase1 with ⟨hl1, hb1⟩ | ⟨l1, hl1, hb1⟩
      · simp at hl1
      rcases hcase2 with ⟨hl2, hb2⟩ | ⟨l2, hl2, hb2⟩
      · simp at hl2
      injection hl1 with hle1
      subst hle1
      injection hl2 with hle2
      subst hle2
      subst hb1; subst hb2; subst ht1; subst ht2
      refine ⟨?_, ?_⟩ <;> simp [catOf, lookupB, List.lookup, breakdownSum] <;>
        linarith
    ·
      have hr2 : (region == "africa") = false := by simpa using hr
      obtain ⟨e1, fh1, d1, dk1, he1, hfh1, hd1, hdk1, ht1, hb1⟩ :=
        calc_global_inv _ t1 b1 region hr2 h1
      obtain ⟨e2, fh2, d2, dk2, he2, hfh2, hd2, hdk2, ht2, hb2⟩ :=
        calc_global_inv _ t2 b2 region hr2 h2
      simp only [setNum] at he1 hfh1 hd1 hb1 he2 hfh2 hd2 hb2
      obtain rfl := option_some_unify he1 he2
      obtain rfl := option_some_unify hfh1 hfh2
      obtain rfl := option_some_unify hd1 hd2
      obtain rfl := option_some_unify hdk1 hdk2
      subst hb1; subst hb2; subst ht1; subst ht2
      refine ⟨?_, ?_⟩ <;> simp [catOf, lookupB, List.lookup, breakdownSum] <;>
        linarith
  | car_miles_week =>
    by_cases hr : (region == "africa") = true
    ·
      have hreg : region = "africa" := by simpa using hr
      subst hreg
      obtain ⟨c1, gf1, e1, fh1, d1, dk1, hc1, hgf1, he1, hfh1, hd1, hdk1, ht1, hcase1⟩ :=
        calc_africa_inv _ t1 b1 h1
      obtain ⟨c2, gf2, e2, fh2, d2, dk2, hc2, hgf2, he2, hfh2, hd2, hdk2, ht2, hcase2⟩ :=
        calc_africa_inv _ t2 b2 h2
      simp only [setNum] at hc1 he1 hfh1 hd1 hcase1 hc2 he2 hfh2 hd2 hcase2
      obtain rfl := option_some_unify hc1 hc2
      obtain rfl := option_some_unify hgf1 hgf2
      obtain rfl := option_some_unify he1 he2
      obtain rfl := option_some_unify hfh1 hfh2
      obtain rfl := option_some_unify hd1 hd2
      obtain rfl := option_some_unify hdk1 hdk2
      rcases hcase1 with ⟨hl1, hb1⟩ | ⟨l1, hl1, hb1⟩ <;>
        rcases hcase2 with ⟨hl2, hb2⟩ | ⟨l2, hl2, hb2⟩
      · subst hb1; subst hb2; subst ht1; subst ht2
        refine ⟨?_, ?_⟩ <;> simp [catOf, lookupB, List.lookup, breakdownSum] <;>
          linarith
      · simp [hl1] at hl2
      · simp [hl2] at hl1
      · obtain rfl := option_some_unify hl1 hl2
        subst hb1; subst hb2; subst ht1; subst ht2
        refine ⟨?_, ?_⟩ <;> simp [catOf, lookupB, List.lookup, breakdownSum] <;>
          linarith
    ·
      have hr2 : (region == "africa") = false := by simpa using hr
      obtain ⟨e1, fh1, d1, dk1, he1, hfh1, hd1, hdk1, ht1, hb1⟩ :=
        calc_global_inv _ t1 b1 region hr2 h1
      obtain ⟨e2, fh2, d2, dk2, he2, hfh2, hd2, hdk2, ht2, hb2⟩ :=
        calc_global_inv _ t2 b2 region hr2 h2
      simp only [setNum] at he1 hfh1 hd1 hb1 he2 hfh2 hd2 hb2
      obtain rfl := option_some_unify he1 he2
      obtain rfl := option_some_unify hfh1 hfh2
      obtain rfl := option_some_unify hd1 hd2
      obtain rfl := option_some_unify hdk1 hdk2
      subst hb1; subst hb2; subst ht1; subst ht2
      refine ⟨?_, ?_⟩ <;> simp [catOf, lookupB, List.lookup, breakdownSum] <;>
        linarith
  | bus_miles_week =>
    by_cases hr : (region == "africa") = true
    ·
      have hreg : region = "africa" := by simpa using hr
      subst hreg
      obtain ⟨c1, gf1, e1, fh1, d1, dk1, hc1, hgf1, he1, hfh1, hd1, hdk1, ht1, hcase1⟩ :=
        calc_africa_inv _ t1 b1 h1
      obtain ⟨c2, gf2, e2, fh2, d2, dk2, hc2, hgf2, he2, hfh2, hd2, hdk2, ht2, hcase2⟩ :=
        calc_africa_inv _ t2 b2 h2
      simp only [setNum] at hc1 he1 hfh1 hd1 hcase1 hc2 he2 hfh2 hd2 hcase2
      obtain rfl := option_some_unify hc1 hc2
      obtain rfl := option_some_unify hgf1 hgf2
      obtain rfl := option_some_unify he1 he2
      obtain rfl := option_some_unify hfh1 hfh2
      obtain rfl := option_some_unify hd1 hd2
      obtain rfl := option_some_unify hdk1 hdk2
      rcases hcase1 with ⟨hl1, hb1⟩ | ⟨l1, hl1, hb1⟩ <;>
        rcases hcase2 with ⟨hl2, hb2⟩ | ⟨l2, hl2, hb2⟩
      · subst hb1; subst hb2; subst ht1; subst ht2
        refine ⟨?_, ?_⟩ <;> simp [catOf, lookupB, List.lookup, breakdownSum] <;>
          linarith
      · simp [hl1] at hl2
      · simp [hl2] at hl1
      · obtain rfl := option_some_unify hl1 hl2
        subst hb1; subst hb2; subst ht1; subst ht2
        refine ⟨?_, ?_⟩ <;> simp [catOf, lookupB, List.lookup, breakdownSum] <;>
          linarith
    ·
      have hr2 : (region == "africa") = false := by simpa using hr
      obtain ⟨e1, fh1, d1, dk1, he1, hfh1, hd1, hdk1, ht1, hb1⟩ :=
        calc_global_inv _ t1 b1 region hr2 h1
      obtain ⟨e2, fh2, d2, dk2, he2, hfh2, hd2, hdk2, ht2, hb2⟩ :=
        calc_global_inv _ t2 b2 region hr2 h2
      simp only [setNum] at he1 hfh1 hd1 hb1 he2 hfh2 hd2 hb2
      obtain rfl := option_some_unify he1 he2
      obtain rfl := option_some_unify hfh1 hfh2
      obtain rfl := option_some_unify hd1 hd2
      obtain rfl := option_some_unify hdk1 hdk2
      subst hb1; subst hb2; subst ht1; subst ht2
      refine ⟨?_, ?_⟩ <;> simp [catOf, lookupB, List.lookup, breakdownSum] <;>
        linarith
  | train_miles_week =>
    by_cases hr : (region == "africa") = true
    ·
      have hreg : region = "africa" := by simpa using hr
      subst hreg
      obtain ⟨c1, gf1, e1, fh1, d1, dk1, hc1, hgf1, he1, hfh1, hd1, hdk1, ht1, hcase1⟩ :=
        calc_africa_inv _ t1 b1 h1
      obtain ⟨c2, gf2, e2, fh2, d2, dk2, hc2, hgf2, he2, hfh2, hd2, hdk2, ht2, hcase2⟩ :=
        calc_africa_inv _ t2 b2 h2
      simp only [setNum] at hc1 he1 hfh1 hd1 hcase1 hc2 he2 hfh2 hd2 hcase2
      obtain rfl := option_some_unify hc1 hc2
      obtain rfl := option_some_unify hgf1 hgf2
      obtain rfl := option_some_unify he1 he2
      obtain rfl := option_some_unify hfh1 hfh2
      obtain rfl := option_some_unify hd1 hd2
      obtain rfl := option_some_unify hdk1 hdk2
      rcases hcase1 with ⟨hl1, hb1⟩ | ⟨l1, hl1, hb1⟩ <;>
        rcases hcase2 with ⟨hl2, hb2⟩ | ⟨l2, hl2, hb2⟩
      · subst hb1; subst hb2; subst ht1; subst ht2
        refine ⟨?_, ?_⟩ <;> simp [catOf, lookupB, List.lookup, breakdownSum] <;>
          linarith
      · simp [hl1] at hl2
      · simp [hl2] at hl1
      · obtain rfl := option_some_unify hl1 hl2
        subst hb1; subst hb2; subst ht1; subst ht2
        refine ⟨?_, ?_⟩ <;> simp [catOf, lookupB, List.lookup, breakdownSum] <;>
          linarith
    ·
      have hr2 : (region == "africa") = false := by simpa using hr
      obtain ⟨e1, fh1, d1, dk1, he1, hfh1, hd1, hdk1, ht1, hb1⟩ :=
        calc_global_inv _ t1 b1 region hr2 h1
      obtain ⟨e2, fh2, d2, dk2, he2, hfh2, hd2, hdk2, ht2, hb2⟩ :=
        calc_global_inv _ t2 b2 region hr2 h2
      simp only [setNum] at he1 hfh1 hd1 hb1 he2 hfh2 hd2 hb2
      obtain rfl := option_some_unify he1 he2
      obtain rfl := option_some_unify hfh1 hfh2
      obtain rfl := option_some_unify hd1 hd2
      obtain rfl := option_some_unify hdk1 hdk2
      subst hb1; subst hb2; subst ht1; subst ht2
      refine ⟨?_, ?_⟩ <;> simp [catOf, lookupB, List.lookup, breakdownSum] <;>
        linarith
  | car_km_week =>
    by_cases hr : (region == "africa") = true
    ·
      have hreg : region = "africa" := by simpa using hr
      subst hreg
      obtain ⟨c1, gf1, e1, fh1, d1, dk1, hc1, hgf1, he1, hfh1, hd1, hdk1, ht1, hcase1⟩ :=
        calc_africa_inv _ t1 b1 h1
      obtain ⟨c2, gf2, e2, fh2, d2, dk2, hc2, hgf2, he2, hfh2, hd2, hdk2, ht2, hcase2⟩ :=
        calc_africa_inv _ t2 b2 h2
      simp only [setNum] at hc1 he1 hfh1 hd1 hcase1 hc2 he2 hfh2 hd2 hcase2
      obtain rfl := option_some_unify hc1 hc2
      obtain rfl := option_some_unify hgf1 hgf2
      obtain rfl := option_some_unify he1 he2
      obtain rfl := option_some_unify hfh1 hfh2
      obtain rfl := option_some_unify hd1 hd2
      obtain rfl := option_some_unify hdk1 hdk2
      rcases hcase1 with ⟨hl1, hb1⟩ | ⟨l1, hl1, hb1⟩ <;>
        rcases hcase2 with ⟨hl2, hb2⟩ | ⟨l2, hl2, hb2⟩
      · subst hb1; subst hb2; subst ht1; subst ht2
        refine ⟨?_, ?_⟩ <;> simp [catOf, lookupB, List.lookup, breakdownSum] <;>
          linarith
      · simp [hl1] at hl2
      · simp [hl2] at hl1
      · obtain rfl := option_some_unify hl1 hl2
        subst hb1; subst hb2; subst ht1; subst ht2
        refine ⟨?_, ?_⟩ <;> simp [catOf, lookupB, List.lookup, breakdownSum] <;>
          linarith
    ·
      have hr2 : (region == "africa") = false := by simpa using hr
      obtain ⟨e1, fh1, d1, dk1, he1, hfh1, hd1, hdk1, ht1, hb1⟩ :=
        calc_global_inv _ t1 b1 region hr2 h1
      obtain ⟨e2, fh2, d2, dk2, he2, hfh2, hd2, hdk2, ht2, hb2⟩ :=
        calc_global_inv _ t2 b2 region hr2 h2
      simp only [setNum] at he1 hfh1 hd1 hb1 he2 hfh2 hd2 hb2
      obtain rfl := option_some_unify he1 he2
      obtain rfl := option_some_unify hfh1 hfh2
      obtain rfl := option_some_unify hd1 hd2
      obtain rfl := option_some_unify hdk1 hdk2
      subst hb1; subst hb2; subst ht1; subst ht2
      refine ⟨?_, ?_⟩ <;> simp [catOf, lookupB, List.lookup, breakdownSum] <;>
        linarith
  | moto_km_week =>
    by_cases hr : (region == "africa") = true
    ·
      have hreg : region = "africa" := by simpa using hr
      subst hreg
      obtain ⟨c1, gf1, e1, fh1, d1, dk1, hc1, hgf1, he1, hfh1, hd1, hdk1, ht1, hcase1⟩ :=
        calc_africa_inv _ t1 b1 h1
      obtain ⟨c2, gf2, e2, fh2, d2, dk2, hc2, hgf2, he2, hfh2, hd2, hdk2, ht2, hcase2⟩ :=
        calc_africa_inv _ t2 b2 h2
      simp only [setNum] at hc1 he1 hfh1 hd1 hcase1 hc2 he2 hfh2 hd2 hcase2
      obtain rfl := option_some_unify hc1 hc2
      obtain rfl := option_some_unify hgf1 hgf2
      obtain rfl := option_some_unify he1 he2
      obtain rfl := option_some_unify hfh1 hfh2
      obtain rfl := option_some_unify hd1 hd2
      obtain rfl := option_some_unify hdk1 hdk2
      rcases hcase1 with ⟨hl1, hb1⟩ | ⟨l1, hl1, hb1⟩ <;>
        rcases hcase2 with ⟨hl2, hb2⟩ | ⟨l2, hl2, hb2⟩
      · subst hb1; subst hb2; subst ht1; subst ht2
        refine ⟨?_, ?_⟩ <;> simp [catOf, lookupB, List.lookup, breakdownSum] <;>
          linarith
      · simp [hl1] at hl2
      · simp [hl2] at hl1
      · obtain rfl := option_some_unify hl1 hl2
        subst hb1; subst hb2; subst ht1; subst ht2
        refine ⟨?_, ?_⟩ <;> simp [catOf, lookupB, List.lookup, breakdownSum] <;>
          linarith
    ·
      have hr2 : (region == "africa") = false := by simpa using hr
      obtain ⟨e1, fh1, d1, dk1, he1, hfh1, hd1, hdk1, ht1, hb1⟩ :=
        calc_global_inv _ t1 b1 region hr2 h1
      obtain ⟨e2, fh2, d2, dk2, he2, hfh2, hd2, hdk2, ht2, hb2⟩ :=
        calc_global_inv _ t2 b2 region hr2 h2
      simp only [setNum] at he1 hfh1 hd1 hb1 he2 hfh2 hd2 hb2
      obtain rfl := option_some_unify he1 he2
      obtain rfl := option_some_unify hfh1 hfh2
      obtain rfl := option_some_unify hd1 hd2
      obtain rfl := option_some_unify hdk1 hdk2
      subst hb1; subst hb2; subst ht1; subst ht2
      refine ⟨?_, ?_⟩ <;> simp [catOf, lookupB, List.lookup, breakdownSum] <;>
        linarith
  | bus_km_week =>
    by_cases hr : (region == "africa") = true
    ·
      have hreg : region = "africa" := by simpa using hr
      subst hreg
      obtain ⟨c1, gf1, e1, fh1, d1, dk1, hc1, hgf1, he1, hfh1, hd1, hdk1, ht1, hcase1⟩ :=
        calc_africa_inv _ t1 b1 h1
      obtain ⟨c2, gf2, e2, fh2, d2, dk2, hc2, hgf2, he2, hfh2, hd2, hdk2, ht2, hcase2⟩ :=
        calc_africa_inv _ t2 b2 h2
      simp only [setNum] at hc1 he1 hfh1 hd1 hcase1 hc2 he2 hfh2 hd2 hcase2
      obtain rfl := option_some_unify hc1 hc2
      obtain rfl := option_some_unify hgf1 hgf2
      obtain rfl := option_some_unify he1 he2
      obtain rfl := option_some_unify hfh1 hfh2
      obtain rfl := option_some_unify hd1 hd2
      obtain rfl := option_some_unify hdk1 hdk2
      rcases hcase1 with ⟨hl1, hb1⟩ | ⟨l1, hl1, hb1⟩ <;>
        rcases hcase2 with ⟨hl2, hb2⟩ | ⟨l2, hl2, hb2⟩
      · subst hb1; subst hb2; subst ht1; subst ht2
        refine ⟨?_, ?_⟩ <;> simp [catOf, lookupB, List.lookup, breakdownSum] <;>
          linarith
      · simp [hl1] at hl2
      · simp [hl2] at hl1
      · obtain rfl := option_some_unify hl1 hl2
        subst hb1; subst hb2; subst ht1; subst ht2
        refine ⟨?_, ?_⟩ <;> simp [catOf, lookupB, List.lookup, breakdownSum] <;>
          linarith
    ·
      have hr2 : (region == "africa") = false := by simpa using hr
      obtain ⟨e1, fh1, d1, dk1, he1, hfh1, hd1, hdk1, ht1, hb1⟩ :=
        calc_global_inv _ t1 b1 region hr2 h1
      obtain ⟨e2, fh2, d2, dk2, he2, hfh2, hd2, hdk2, ht2, hb2⟩ :=
        calc_global_inv _ t2 b2 region hr2 h2
      simp only [setNum] at he1 hfh1 hd1 hb1 he2 hfh2 hd2 hb2
      obtain rfl := option_some_unify he1 he2
      obtain rfl := option_some_unify hfh1 hfh2
      obtain rfl := option_some_unify hd1 hd2
      obtain rfl := option_some_unify hdk1 hdk2
      subst hb1; subst hb2; subst ht1; subst ht2
      refine ⟨?_, ?_⟩ <;> simp [catOf, lookupB, List.lookup, breakdownSum] <;>
        linarith
  | flight_hours =>
    by_cases hr : (region == "africa") = true
    ·
      have hreg : region = "africa" := by simpa using hr
      subst hreg
      obtain ⟨c1, gf1, e1, fh1, d1, dk1, hc1, hgf1, he1, hfh1, hd1, hdk1, ht1, hcase1⟩ :=
        calc_africa_inv _ t1 b1 h1
      obtain ⟨c2, gf2, e2, fh2, d2, dk2, hc2, hgf2, he2, hfh2, hd2, hdk2, ht2, hcase2⟩ :=
        calc_africa_inv _ t2 b2 h2
      simp only [setNum] at hc1 he1 hfh1 hd1 hcase1 hc2 he2 hfh2 hd2 hcase2
      obtain rfl := option_some_unify hc1 hc2
      obtain rfl := option_some_unify hgf1 hgf2
      obtain rfl := option_some_unify he1 he2
      injection hfh1 with hff1
      subst hff1
      injection hfh2 with hff2
      subst hff2
      obtain rfl := option_some_unify hd1 hd2
      obtain rfl := option_some_unify hdk1 hdk2
      rcases hcase1 with ⟨hl1, hb1⟩ | ⟨l1, hl1, hb1⟩ <;>
        rcases hcase2 with ⟨hl2, hb2⟩ | ⟨l2, hl2, hb2⟩
      · subst hb1; subst hb2; subst ht1; subst ht2
        refine ⟨?_, ?_⟩ <;> simp [catOf, lookupB, List.lookup, breakdownSum] <;>
          linarith
      · simp [hl1] at hl2
      · simp [hl2] at hl1
      · obtain rfl := option_some_unify hl1 hl2
        subst hb1; subst hb2; subst ht1; subst ht2
        refine ⟨?_, ?_⟩ <;> simp [catOf, lookupB, List.lookup, breakdownSum] <;>
          linarith
    ·
      have hr2 : (region == "africa") = false := by simpa using hr
      obtain ⟨e1, fh1, d1, dk1, he1, hfh1, hd1, hdk1, ht1, hb1⟩ :=
        calc_global_inv _ t1 b1 region hr2 h1
      obtain ⟨e2, fh2, d2, dk2, he2, hfh2, hd2, hdk2, ht2, hb2⟩ :=
        calc_global_inv _ t2 b2 region hr2 h2
      simp only [setNum] at he1 hfh1 hd1 hb1 he2 hfh2 hd2 hb2
      obtain rfl := option_some_unify he1 he2
      injection hfh1 with hff1
      subst hff1
      injection hfh2 with hff2
      subst hff2
      obtain rfl := option_some_unify hd1 hd2
      obtain rfl := option_some_unify hdk1 hdk2
      subst hb1; subst hb2; subst ht1; subst ht2
      refine ⟨?_, ?_⟩ <;> simp [catOf, lookupB, List.lookup, breakdownSum] <;>
        linarith

/-- Witness for C8: doubling global electricity from 100 to 200 kWh. -/
theorem C8_monotonicity_witness :
    lookupB
      [("Housing: Electricity", (600 : ℚ)), ("Housing: Natural Gas", 0),
       ("Housing: Heating Oil", 0), ("Housing: Propane", 0),
       ("Transport: Car", 0), ("Transport: Bus", 0), ("Transport: Train", 0),
       ("Transport: Flights", 0), ("Diet", 438)] "Housing: Electricity" ≤
    lookupB
      [("Housing: Electricity", (1200 : ℚ)), ("Housing: Natural Gas", 0),
       ("Housing: Heating Oil", 0), ("Housing: Propane", 0),
       ("Transport: Car", 0), ("Transport: Bus", 0), ("Transport: Train", 0),
       ("Transport: Flights", 0), ("Diet", 438)] "Housing: Electricity" ∧
    (1038 : ℚ) ≤ 1638 :=
  C8_monotonicity .electricity_kwh 100 200
    { flight_hours := some 0, diet := some "Vegan" } "global" 1038 1638
    [("Housing: Electricity", 600), ("Housing: Natural Gas", 0),
     ("Housing: Heating Oil", 0), ("Housing: Propane", 0),
     ("Transport: Car", 0), ("Transport: Bus", 0), ("Transport: Train", 0),
     ("Transport: Flights", 0), ("Diet", 438)]
    [("Housing: Electricity", 1200), ("Housing: Natural Gas", 0),
     ("Housing: Heating Oil", 0), ("Housing: Propane", 0),
     ("Transport: Car", 0), ("Transport: Bus", 0), ("Transport: Train", 0),
     ("Transport: Flights", 0), ("Diet", 438)]
    (by norm_num)
    (by simp [calculate_carbon_footprint, calculate_cf, calcBreakdown, setNum,
              lookupD, COUNTRY_GRID_MIX, GLOBAL_EMISSION_FACTORS, diet_map,
              breakdownSum, List.lookup] <;> norm_num)
    (by simp [calculate_carbon_footprint, calculate_cf, calcBreakdown, setNum,
              lookupD, COUNTRY_GRID_MIX, GLOBAL_EMISSION_FACTORS, diet_map,
              breakdownSum, List.lookup] <;> norm_num)


/-- C9: whenever the recommendation block produces a list, that list is
sorted in descending order of estimated savings, and recommendations with
equal savings keep the order in which their rules emitted them (the sorted
list filtered to any one savings value equals the emitted list filtered to
that value). -/
theorem C9_recommendations_sorted (breakdown : List (String × ℚ))
    (data : InputRecord) (region : String) (raw l : List (String × ℚ))
    (hraw : recommendations_raw breakdown data region = some raw)
    (h : recommendations breakdown data region = some l) :
    l.Pairwise (fun a b => b.2 ≤ a.2) ∧
    ∀ s : ℚ, l.filter (fun y => decide (y.2 = s)) =
      raw.filter (fun y => decide (y.2 = s)) := by
  unfold recommendations at h
  rw [hraw] at h
  simp only [Option.map_some'] at h
  injection h with h2
  subst h2
  exact ⟨pairwise_sortRecs raw, fun s => filter_sortRecs s raw⟩

/-- Witness for C9: car rule (400) and electricity rule (500) both fire;
the output lists the 500-saving recommendation first. -/
theorem C9_recommendations_sorted_witness :
    ([("**💡 Switch to energy-efficient appliances** and LED bulbs. Consider solar if available.", (500 : ℚ)),
      ("**🚗 Reduce car travel by 20%.** Use public transport, bike, or carpool just one day a week.", 400)]).Pairwise
      (fun a b => b.2 ≤ a.2) ∧
    ([("**💡 Switch to energy-efficient appliances** and LED bulbs. Consider solar if available.", (500 : ℚ)),
      ("**🚗 Reduce car travel by 20%.** Use public transport, bike, or carpool just one day a week.", 400)]).filter
      (fun y => decide (y.2 = (400 : ℚ))) =
    ([("**🚗 Reduce car travel by 20%.** Use public transport, bike, or carpool just one day a week.", (400 : ℚ)),
      ("**💡 Switch to energy-efficient appliances** and LED bulbs. Consider solar if available.", 500)]).filter
      (fun y => decide (y.2 = (400 : ℚ))) := by
  have hmain := C9_recommendations_sorted
    [("Transport: Car", 2500), ("Housing: Electricity", 1600)] {} "global"
    [("**🚗 Reduce car travel by 20%.** Use public transport, bike, or carpool just one day a week.", 400),
     ("**💡 Switch to energy-efficient appliances** and LED bulbs. Consider solar if available.", 500)]
    [("**💡 Switch to energy-efficient appliances** and LED bulbs. Consider solar if available.", 500),
     ("**🚗 Reduce car travel by 20%.** Use public transport, bike, or carpool just one day a week.", 400)]
    (by simp [recommendations_raw, lookupB, List.lookup] <;> norm_num)
    (by simp [recommendations, recommendations_raw, lookupB, List.lookup,
              sortRecs, insertRec] <;> norm_num)
  exact ⟨hmain.1, hmain.2 400⟩

/-- Changes confined to the `electricity` entry of the global factor table
are invisible to the Africa path (it reads the grid table instead). -/
theorem calc_africa_ignores_gef_electricity (v : ℚ) (data : InputRecord) :
    calcBreakdown COUNTRY_GRID_MIX
      (updateTable GLOBAL_EMISSION_FACTORS "electricity" v) data "africa" =
    calcBreakdown COUNTRY_GRID_MIX GLOBAL_EMISSION_FACTORS data "africa" := by
  have h1 := lookupD_updateTable_ne GLOBAL_EMISSION_FACTORS "electricity" v
    (k := "lpg_per_kg") (by decide)
  have h2 := lookupD_updateTable_ne GLOBAL_EMISSION_FACTORS "electricity" v
    (k := "car_gasoline") (by decide)
  have h3 := lookupD_updateTable_ne GLOBAL_EMISSION_FACTORS "electricity" v
    (k := "motorcycle") (by decide)
  have h4 := lookupD_updateTable_ne GLOBAL_EMISSION_FACTORS "electricity" v
    (k := "bus") (by decide)
  have h5 := lookupD_updateTable_ne GLOBAL_EMISSION_FACTORS "electricity" v
    (k := "plane_short") (by decide)
  have h6 := lookupD_updateTable_ne GLOBAL_EMISSION_FACTORS "electricity" v
    (k := "diet_typical") (by decide)
  have h7 := lookupD_updateTable_ne GLOBAL_EMISSION_FACTORS "electricity" v
    (k := "diet_meat_regular") (by decide)
  have h8 := lookupD_updateTable_ne GLOBAL_EMISSION_FACTORS "electricity" v
    (k := "diet_meat_heavy") (by decide)
  have h9 := lookupD_updateTable_ne GLOBAL_EMISSION_FACTORS "electricity" v
    (k := "diet_average") (by decide)
  have h10 := lookupD_updateTable_ne GLOBAL_EMISSION_FACTORS "electricity" v
    (k := "diet_vegetarian") (by decide)
  have h11 := lookupD_updateTable_ne GLOBAL_EMISSION_FACTORS "electricity" v
    (k := "diet_vegan") (by decide)
  unfold calcBreakdown
  rcases hd : data.diet with _ | d
  · simp [hd, h1, h2, h3, h4, h5]
  · rcases hdk : List.lookup d diet_map with _ | dk
    · simp [hd, hdk, h1, h2, h3, h4, h5]
    · rcases diet_key_cases hdk with rfl | rfl | rfl | rfl | rfl | rfl <;>
        simp [hd, hdk, h1, h2, h3, h4, h5, h6, h7, h8, h9, h10, h11]

/-- C10: region isolation as two-run noninterference: the Africa-path
result is unchanged under any change to the `electricity` entry of
`GLOBAL_EMISSION_FACTORS`, and the global-path result is unchanged under
replacing the grid-intensity table by any other table. -/
theorem C10_region_isolation :
    (∀ (v : ℚ) (data : InputRecord),
      calculate_cf COUNTRY_GRID_MIX
        (updateTable GLOBAL_EMISSION_FACTORS "electricity" v) data "africa" =
      calculate_carbon_footprint data "africa") ∧
    (∀ (grid : List (String × ℚ)) (data : InputRecord),
      calculate_cf grid GLOBAL_EMISSION_FACTORS data "global" =
      calculate_carbon_footprint data "global") := by
  constructor
  · intro v data
    unfold calculate_carbon_footprint calculate_cf
    rw [calc_africa_ignores_gef_electricity]
  · intro grid data
    unfold calculate_carbon_footprint calculate_cf
    congr 1

end EcoFootprint
